import Mathlib

/-
Formal model of the MotoMind backend session/connection manager
(`server.js`): phone-number normalization, the per-tenant client
lifecycle event writes to the status projection, the initialization
race inside `getOrCreateClient`, the registry get-or-create step
machine with cooperative-async interleaving, the send-bill endpoint
outcome handling, and the daily reminder batch.
-/

namespace MotoMind

/-! ### Phone normalization (`formatPhoneNumber`, server.js lines 90-99) -/

/-- Characters of a string that are digits, mirroring `phone.replace(/\D/g, '')`. -/
def digitsOf (s : String) : List Char :=
  s.data.filter Char.isDigit

/-- Boolean list-of-characters version of JavaScript `String.prototype.startsWith`:
`startsWithChars s pre` is true when `pre` is an initial segment of `s`. -/
def startsWithChars : List Char → List Char → Bool
  | _, [] => true
  | [], _ :: _ => false
  | c :: cs, p :: ps => c == p && startsWithChars cs ps

/-- Embedding of `formatPhoneNumber` from server.js: strip non-digits,
replace a leading `0` by `92`, prepend `92` when absent, append `@c.us`. -/
def formatPhoneNumber (phone : String) : String :=
  let cleaned := digitsOf phone
  let step1 := if startsWithChars cleaned ['0'] then '9' :: '2' :: cleaned.tail else cleaned
  let step2 := if startsWithChars step1 ['9', '2'] then step1 else '9' :: '2' :: step1
  String.mk step2 ++ "@c.us"

/-- Normalization pipeline written from the specification's words: "strips all
non-digit characters, replaces a leading '0' with the country code '92',
prefixes '92' if the result does not already start with '92', and appends
'@c.us'". Kept separate from `formatPhoneNumber` so the two can be compared. -/
def specFormatPhoneNumber (phone : String) : String :=
  let stripped := digitsOf phone
  let replaced := if startsWithChars stripped ['0'] then '9' :: '2' :: stripped.tail else stripped
  let withCode := if startsWithChars replaced ['9', '2'] then replaced else '9' :: '2' :: replaced
  String.mk withCode ++ "@c.us"

/-! ### Lifecycle event writes to the status projection (server.js lines 217-263)

Each handler performs a single merged upsert of the tenant's
`whatsapp_sessions` document.  A field value of `none` in the outer
`Option` means the handler omits the field from the write; `some v`
means the handler writes value `v` (with `some none` recording an
explicit `null`). -/

/-- The field set one lifecycle event handler writes to the status document. -/
structure StatusWrite where
  status : String
  qr : Option (Option String)
  phoneNumber : Option String

/-- Lifecycle events emitted by a tenant's WhatsApp client. -/
inductive LifecycleEvent
  | qr (image : String)
  | ready (phone : String)
  | disconnected (reason : String)
  | authFailure (msg : String)

/-- The status-projection write performed by each `client.on` handler in
`getOrCreateClient`: `qr` writes `status='qr'` with the pairing image,
`ready` writes `status='connected'` with `qr: null` and the paired phone,
`disconnected` and `auth_failure` both write `status='disconnected'`
with `qr: null`. -/
def lifecycleWrite : LifecycleEvent → StatusWrite
  | .qr image => ⟨"qr", some (some image), none⟩
  | .ready phone => ⟨"connected", some none, some phone⟩
  | .disconnected _ => ⟨"disconnected", some none, none⟩
  | .authFailure _ => ⟨"disconnected", some none, none⟩

/-! ### The initialization race (server.js lines 267-282)

`getOrCreateClient` returns a promise that is settled by the first of:
an `initialize()` rejection, a `ready` event, an `auth_failure` event,
or — only when `client.info` is present at that moment — the 5000 ms
timer.  A timer firing with `client.info` absent settles nothing. -/

/-- One observable occurrence in the creation race, in delivery order. -/
inductive RaceEvent
  | initError (msg : String)
  | ready
  | authFailure (msg : String)
  | timeout (infoPresent : Bool)
deriving DecidableEq

/-- Final disposition of the creation promise. -/
inductive RaceOutcome
  | resolved
  | rejected
  | pending
deriving DecidableEq

/-- Settlement of the creation promise over a delivery-ordered event trace:
the first settling occurrence wins; a timer firing without `client.info`
is a no-op and the race continues with any later events. -/
def settleRace : List RaceEvent → RaceOutcome
  | [] => .pending
  | .initError _ :: _ => .rejected
  | .ready :: _ => .resolved
  | .authFailure _ :: _ => .rejected
  | .timeout true :: _ => .resolved
  | .timeout false :: rest => settleRace rest

/-! ### Send-bill endpoint outcome handling (server.js lines 398-423) -/

/-- Outcome of the guarded dispatch block inside `POST /api/records/:id/send`:
client creation rejected, client present but not ready, transport send
threw, or the message was sent. -/
inductive SendOutcome
  | createThrows (msg : String)
  | notReady
  | sendThrows (msg : String)
  | success
deriving DecidableEq

/-- The `lastBillAttempt` sub-object written to the record. -/
structure BillAttempt where
  whatsappSent : Bool
  error : Option String

/-- The record update the endpoint always performs after the dispatch block. -/
structure SendRecordUpdate where
  billSentAtSet : Bool
  billSentCountInc : Nat
  lastBillAttempt : BillAttempt

/-- The JSON response body of the endpoint. -/
structure SendResponse where
  success : Bool
  message : String
  error : Option String

/-- The `(whatsappSent, whatsappError)` pair produced by the try/catch
around client resolution and `sendMessage`. -/
def sendAttempt : SendOutcome → Bool × Option String
  | .createThrows m => (false, some m)
  | .notReady => (false, some "WhatsApp client not connected or ready")
  | .sendThrows m => (false, some m)
  | .success => (true, none)

/-- Embedding of the tail of `POST /api/records/:id/send` on a finalized,
authorized record: the record update (always performed) and the
response, both determined by the dispatch outcome. -/
def sendBill (o : SendOutcome) : SendRecordUpdate × SendResponse :=
  ⟨⟨true, 1, ⟨(sendAttempt o).1, (sendAttempt o).2⟩⟩,
   ⟨(sendAttempt o).1,
    if (sendAttempt o).1 then "Bill sent!" else "Failed",
    (sendAttempt o).2⟩⟩

/-- The whole guarded dispatch as seen by the request: `await
getOrCreateClient(userId)` (server.js line 402) either settles — after
which the rest of the handler runs and produces one of the `SendOutcome`
cases — or never settles, which happens when no connected client can be
reached and neither `ready` nor `auth_failure` ever arrives, the
creation race staying `pending` (`settleRace`).  In the unsettled case
(`none`) the handler suspends at the await forever: the record update
and the response below it are never executed, so the request yields
nothing. -/
def sendBillRequest : Option SendOutcome → Option (SendRecordUpdate × SendResponse)
  | none => none
  | some o => some (sendBill o)

/-! ### The daily reminder batch (server.js lines 446-466) -/

/-- What happens while one due record is processed inside the cron loop. -/
inductive RecordOutcome
  | createThrows (msg : String)
  | notReady
  | sendThrows (msg : String)
  | success
deriving DecidableEq

/-- The loop body before its catch: creation or send failures are thrown
(`Except.error`), a not-ready client is silently skipped (`ok false`),
and a delivered reminder marks the record (`ok true`). -/
def reminderBody : RecordOutcome → Except String Bool
  | .createThrows m => .error m
  | .notReady => .ok false
  | .sendThrows m => .error m
  | .success => .ok true

/-- The per-record try/catch: a thrown error is caught and logged, so the
record simply ends up unmarked. -/
def reminderStep (o : RecordOutcome) : Bool :=
  match reminderBody o with
  | .ok b => b
  | .error _ => false

/-- The cron iteration over the due records, pairing each record id with
whether it was marked as reminded. -/
def runReminderBatch : List (String × RecordOutcome) → List (String × Bool)
  | [] => []
  | p :: rest => (p.1, reminderStep p.2) :: runReminderBatch rest

/-! ### The registry get-or-create step machine (server.js lines 180-283)

`getOrCreateClient` runs in a cooperatively scheduled process: the
registry check is synchronous, then the liveness probe
(`clients[userId].getState()`) and the session restore
(`restoreSessionFromCloud`) are awaited, and finally the client is
constructed and stored in `clients[userId]` in one synchronous tick.
Each await is a suspension point at which other calls may run. -/

/-- Behaviour of the liveness probe `getState()` on a given handle id:
the call either throws or reports a state string. -/
inductive ProbeBehavior
  | throws
  | state (s : String)
deriving DecidableEq

/-- The environment fixes what each handle's probe reports. -/
structure Env where
  probe : Nat → ProbeBehavior

/-- Shared process state: the `clients` registry (tenant id to handle id,
one JavaScript object key per tenant), every handle ever constructed
(with its tenant), every handle whose `destroy()` was called, the
tenants for which `restoreSessionFromCloud` ran, and the next fresh
handle id. -/
structure RegState where
  registry : List (String × Nat)
  constructed : List (String × Nat)
  destroyed : List Nat
  restored : List String
  nextId : Nat
deriving DecidableEq

/-- Lookup of `clients[t]`. -/
def lookupReg : List (String × Nat) → String → Option Nat
  | [], _ => none
  | p :: rest, t => if p.1 = t then some p.2 else lookupReg rest t

/-- `delete clients[t]`: every entry under the key is removed. -/
def removeReg : List (String × Nat) → String → List (String × Nat)
  | [], _ => []
  | p :: rest, t => if p.1 = t then removeReg rest t else p :: removeReg rest t

/-- `clients[t] = h`: keyed assignment replaces any prior entry for `t`. -/
def insertReg (r : List (String × Nat)) (t : String) (h : Nat) : List (String × Nat) :=
  (t, h) :: removeReg r t

/-- Progress of one `getOrCreateClient(t)` call: about to run the
registry check, suspended in the probe of handle `h`, suspended in the
session restore, or returned (with the registry value it returned). -/
inductive TaskPC
  | start
  | probing (h : Nat)
  | restoring
  | done (result : Option Nat)
deriving DecidableEq

/-- One tick of a `getOrCreateClient(t)` call.  `start`: read
`clients[t]`; begin the probe when a handle exists, else begin the
restore.  `probing h`: when the probe throws, `delete clients[t]` and
fall through to restore; when it reports `CONNECTED`, return
`clients[t]`; otherwise fall through to restore leaving the registry
untouched.  `restoring`: the restore resolves, and in the same tick the
new client is constructed and stored with `clients[t] = client`. -/
def taskStep (env : Env) (t : String) : TaskPC → RegState → TaskPC × RegState
  | .start, st =>
      match lookupReg st.registry t with
      | some h => (.probing h, st)
      | none => (.restoring, st)
  | .probing h, st =>
      match env.probe h with
      | .throws => (.restoring, { st with registry := removeReg st.registry t })
      | .state s =>
          if s = "CONNECTED" then (.done (lookupReg st.registry t), st)
          else (.restoring, st)
  | .restoring, st =>
      (.done (some st.nextId),
       { st with
          restored := t :: st.restored,
          constructed := (t, st.nextId) :: st.constructed,
          registry := insertReg st.registry t st.nextId,
          nextId := st.nextId + 1 })
  | .done r, st => (.done r, st)

/-- Run a single `getOrCreateClient(t)` call for a given number of ticks. -/
def runTask (env : Env) (t : String) : Nat → TaskPC × RegState → TaskPC × RegState
  | 0, s => s
  | n + 1, s => runTask env t n (taskStep env t s.1 s.2)

/-- Two concurrent `getOrCreateClient(t)` calls sharing one process state. -/
structure TwoTasks where
  a : TaskPC
  b : TaskPC
  st : RegState
deriving DecidableEq

/-- Which call the event loop runs next. -/
inductive Sched
  | A
  | B
deriving DecidableEq

/-- Advance the scheduled call by one tick. -/
def twoStep (env : Env) (t : String) (s : TwoTasks) : Sched → TwoTasks
  | .A => ⟨(taskStep env t s.a s.st).1, s.b, (taskStep env t s.a s.st).2⟩
  | .B => ⟨s.a, (taskStep env t s.b s.st).1, (taskStep env t s.b s.st).2⟩

/-- Run the two calls under an explicit interleaving schedule. -/
def runSched (env : Env) (t : String) : List Sched → TwoTasks → TwoTasks
  | [], s => s
  | c :: cs, s => runSched env t cs (twoStep env t s c)

/-- Number of live clients for tenant `t`: constructed for `t` and never
destroyed.  A client stays live whether or not it is still registered. -/
def liveFor (st : RegState) (t : String) : Nat :=
  (st.constructed.filter fun p => p.1 == t && !(st.destroyed.contains p.2)).length

/-- Number of registry entries whose key is `t`. -/
def countKey : List (String × Nat) → String → Nat
  | [], _ => 0
  | p :: rest, t => (if p.1 = t then 1 else 0) + countKey rest t

/-- The registry holds at most one handle per tenant. -/
def atMostOne (r : List (String × Nat)) : Prop :=
  ∀ t, countKey r t ≤ 1

/-- Probe environment in which every probe throws. -/
def envThrow : Env := ⟨fun _ => ProbeBehavior.throws⟩

/-- Probe environment in which every probe reports `DISCONNECTED`. -/
def envDisc : Env := ⟨fun _ => ProbeBehavior.state "DISCONNECTED"⟩

/-- Probe environment in which every probe reports `CONNECTED`. -/
def envConn : Env := ⟨fun _ => ProbeBehavior.state "CONNECTED"⟩

/-- Process state with one registered, constructed, live handle `0` for
tenant `"t"`. -/
def stPrior : RegState := ⟨[("t", 0)], [("t", 0)], [], [], 1⟩

/-- Empty process state. -/
def stEmpty : RegState := ⟨[], [], [], [], 0⟩

/-- Two fresh concurrent calls over the empty process state. -/
def initTwo : TwoTasks := ⟨TaskPC.start, TaskPC.start, stEmpty⟩

/-! ### Helper lemmas: the registry is a keyed map -/

theorem countKey_removeReg_self (r : List (String × Nat)) (t : String) :
    countKey (removeReg r t) t = 0 := by
  induction r with
  | nil => rfl
  | cons p rest ih =>
      by_cases h : p.1 = t <;> simp [removeReg, countKey, h, ih]

theorem countKey_removeReg_ne (r : List (String × Nat)) (t u : String) (h : u ≠ t) :
    countKey (removeReg r t) u = countKey r u := by
  induction r with
  | nil => rfl
  | cons p rest ih =>
      by_cases h1 : p.1 = t
      · have h2 : p.1 ≠ u := by rw [h1]; exact fun e => h e.symm
        simp [removeReg, countKey, h1, h2, ih]
        exact fun e => h e.symm
      · simp [removeReg, countKey, h1, ih]

theorem atMostOne_removeReg (r : List (String × Nat)) (t : String)
    (h : atMostOne r) : atMostOne (removeReg r t) := by
  intro u
  by_cases hu : u = t
  · subst hu; rw [countKey_removeReg_self]; exact Nat.zero_le 1
  · rw [countKey_removeReg_ne r t u hu]; exact h u

theorem atMostOne_insertReg (r : List (String × Nat)) (t : String) (n : Nat)
    (h : atMostOne r) : atMostOne (insertReg r t n) := by
  intro u
  by_cases hu : u = t
  · subst hu
    simp [insertReg, countKey, countKey_removeReg_self]
  · have hne : ¬ (t = u) := fun e => hu e.symm
    simp [insertReg, countKey, hne, countKey_removeReg_ne r t u hu]
    exact h u

theorem taskStep_atMostOne (env : Env) (t : String) (pc : TaskPC) (st : RegState)
    (h : atMostOne st.registry) : atMostOne (taskStep env t pc st).2.registry := by
  cases pc with
  | start =>
      cases hl : lookupReg st.registry t <;> simp [taskStep, hl] <;> exact h
  | probing n =>
      cases hp : env.probe n with
      | throws => simpa [taskStep, hp] using atMostOne_removeReg st.registry t h
      | state s =>
          by_cases hs : s = "CONNECTED" <;> simp [taskStep, hp, hs] <;> exact h
  | restoring => simpa [taskStep] using atMostOne_insertReg st.registry t st.nextId h
  | done r => simpa [taskStep] using h

theorem twoStep_atMostOne (env : Env) (t : String) (s : TwoTasks) (c : Sched)
    (h : atMostOne s.st.registry) : atMostOne (twoStep env t s c).st.registry := by
  cases c with
  | A => exact taskStep_atMostOne env t s.a s.st h
  | B => exact taskStep_atMostOne env t s.b s.st h

theorem runSched_atMostOne (env : Env) (t : String) (sched : List Sched) (s : TwoTasks)
    (h : atMostOne s.st.registry) : atMostOne (runSched env t sched s).st.registry := by
  induction sched generalizing s with
  | nil => exact h
  | cons c cs ih => exact ih _ (twoStep_atMostOne env t s c h)

/-! ### Claim theorems -/

/-- C1 (counterexample): when the timeout fires with `client.info` absent and
no later `ready` or `auth_failure` event arrives, the creation promise stays
pending forever; it does not fail, contradicting the claim that the call
fails with a ConnectError in this case. -/
theorem initRace_timeout_unsettled :
    settleRace [RaceEvent.timeout false] = RaceOutcome.pending
    ∧ settleRace [RaceEvent.timeout false] ≠ RaceOutcome.rejected := by
  decide

/-- C1 (amended): the creation race resolves if `ready` arrives first, rejects
if `auth_failure` (or an initialization error) arrives first, resolves at the
timeout bound exactly when the client reports itself initialized, and in the
remaining case — the timer fires without `client.info` and no settling event
ever arrives — the promise remains unsettled rather than failing. -/
theorem initRace_characterization :
    (∀ rest, settleRace (RaceEvent.ready :: rest) = RaceOutcome.resolved)
    ∧ (∀ msg rest, settleRace (RaceEvent.authFailure msg :: rest) = RaceOutcome.rejected)
    ∧ (∀ msg rest, settleRace (RaceEvent.initError msg :: rest) = RaceOutcome.rejected)
    ∧ (∀ rest, settleRace (RaceEvent.timeout true :: rest) = RaceOutcome.resolved)
    ∧ (∀ tr, (∀ e ∈ tr, e = RaceEvent.timeout false) → settleRace tr = RaceOutcome.pending) := by
  refine ⟨fun rest => rfl, fun msg rest => rfl, fun msg rest => rfl, fun rest => rfl, ?_⟩
  intro tr h
  induction tr with
  | nil => rfl
  | cons e rest ih =>
      have he : e = RaceEvent.timeout false := h e (List.mem_cons_self e rest)
      subst he
      show settleRace rest = RaceOutcome.pending
      exact ih fun x hx => h x (List.mem_cons_of_mem _ hx)

/-- C1 (witness for the amended theorem at concrete traces). -/
theorem initRace_characterization_witness :
    settleRace [RaceEvent.ready] = RaceOutcome.resolved
    ∧ settleRace [RaceEvent.timeout false] = RaceOutcome.pending :=
  ⟨initRace_characterization.1 [],
   initRace_characterization.2.2.2.2 [RaceEvent.timeout false] (by decide)⟩

/-- C2 (counterexample): the `auth_failure` handler upserts
`status='disconnected'`, not `status='error'`. -/
theorem authFailure_status_not_error :
    (lifecycleWrite (LifecycleEvent.authFailure "session invalidated")).status = "disconnected"
    ∧ (lifecycleWrite (LifecycleEvent.authFailure "session invalidated")).status ≠ "error" := by
  decide

/-- C2 (amended): for every tenant, when an auth-failure event is delivered,
the status projection is upserted with status `'disconnected'` and the
pairing-image field written as explicit null. -/
theorem authFailure_writes_disconnected (msg : String) :
    lifecycleWrite (LifecycleEvent.authFailure msg) = ⟨"disconnected", some none, none⟩ :=
  rfl

/-- C3 (counterexample): under the schedule check-A, check-B, create-A,
create-B two overlapping `getOrCreate("t")` calls each construct a live
client for `"t"` — the existence check and the insertion are separated by
the restore suspension point, so more than one live client exists. -/
theorem two_live_clients_possible :
    liveFor (runSched envThrow "t" [Sched.A, Sched.B, Sched.A, Sched.B] initTwo).st "t" = 2
    ∧ ¬ liveFor (runSched envThrow "t" [Sched.A, Sched.B, Sched.A, Sched.B] initTwo).st "t" ≤ 1 := by
  decide

/-- C3 (amended): the registry itself never holds more than one handle per
tenant (keyed insertion overwrites, keyed deletion removes), and this is
preserved by every interleaving of two `getOrCreate` calls; but the existence
check and handle insertion are separated by suspension points, so two
overlapping `getOrCreate(T)` calls can each construct a live client for `T`
— the earlier client stays live, merely unregistered. -/
theorem registry_keyed_but_clients_race :
    (∀ (env : Env) (t : String) (sched : List Sched) (s : TwoTasks),
        atMostOne s.st.registry → atMostOne (runSched env t sched s).st.registry)
    ∧ liveFor (runSched envThrow "t" [Sched.A, Sched.B, Sched.A, Sched.B] initTwo).st "t" = 2 :=
  ⟨fun env t sched s h => runSched_atMostOne env t sched s h, by decide⟩

/-- C3 (witness for the amended theorem at a concrete schedule). -/
theorem registry_keyed_but_clients_race_witness :
    atMostOne (runSched envThrow "t" [Sched.A, Sched.B] initTwo).st.registry :=
  registry_keyed_but_clients_race.1 envThrow "t" [Sched.A, Sched.B] initTwo
    (fun t => by simp [initTwo, stEmpty, countKey])

/-- C4 (counterexample): starting from a registry holding handle `0` for
tenant `"t"` whose probe reports `DISCONNECTED` (probe succeeds, state not
connected), the call falls through to creation: the new handle `1` is
constructed and stored, the prior handle was still registered at the tick
before creation, and `destroy()` is never called on it — the prior handle is
neither removed first nor released, contradicting the claim. -/
theorem stale_handle_not_destroyed :
    (runTask envDisc "t" 3 (TaskPC.start, stPrior)).2.constructed = [("t", 1), ("t", 0)]
    ∧ (runTask envDisc "t" 2 (TaskPC.start, stPrior)).2.registry = [("t", 0)]
    ∧ (runTask envDisc "t" 3 (TaskPC.start, stPrior)).2.destroyed = [] := by
  decide

/-- C4 (amended): when the liveness probe throws, the prior handle is removed
from the registry before the new handle is created, but its resources are
never released (`destroy` is not called); when the probe succeeds with a
non-connected state, the prior handle is neither removed nor destroyed before
creation — it stays registered until the new handle's keyed insertion
overwrites it. -/
theorem prior_handle_replacement_paths :
    ((runTask envThrow "t" 2 (TaskPC.start, stPrior)).2.registry = []
      ∧ (runTask envThrow "t" 3 (TaskPC.start, stPrior)).2.registry = [("t", 1)]
      ∧ (runTask envThrow "t" 3 (TaskPC.start, stPrior)).2.destroyed = [])
    ∧ ((runTask envDisc "t" 2 (TaskPC.start, stPrior)).2.registry = [("t", 0)]
      ∧ (runTask envDisc "t" 3 (TaskPC.start, stPrior)).2.registry = [("t", 1)]
      ∧ (runTask envDisc "t" 3 (TaskPC.start, stPrior)).2.destroyed = []) := by
  decide

/-- C5 (confirmed): when a registered handle's probe succeeds and reports
`CONNECTED`, `getOrCreateClient` returns that same handle and the process
state is completely unchanged: no restore, no construction, no registry
mutation, no destruction. -/
theorem getOrCreate_connected_idempotent (env : Env) (t : String) (n : Nat) (st : RegState)
    (hl : lookupReg st.registry t = some n)
    (hp : env.probe n = ProbeBehavior.state "CONNECTED") :
    runTask env t 2 (TaskPC.start, st) = (TaskPC.done (some n), st) := by
  simp [runTask, taskStep, hl, hp]

/-- C5 (witness at a concrete connected registry). -/
theorem getOrCreate_connected_idempotent_witness :
    lookupReg stPrior.registry "t" = some 0
    ∧ envConn.probe 0 = ProbeBehavior.state "CONNECTED"
    ∧ runTask envConn "t" 2 (TaskPC.start, stPrior) = (TaskPC.done (some 0), stPrior) :=
  ⟨by decide, rfl, getOrCreate_connected_idempotent envConn "t" 0 stPrior (by decide) rfl⟩

/-- C6 (confirmed): the reminder batch processes every due record — the
per-record try/catch keeps creation failures, not-ready clients and send
failures from aborting the iteration — and a record is marked as reminded
exactly on success: failures and not-ready clients leave it unmarked. -/
theorem reminderBatch_isolation (recs : List (String × RecordOutcome)) :
    (runReminderBatch recs).map Prod.fst = recs.map Prod.fst
    ∧ (∀ p ∈ recs, (p.1, reminderStep p.2) ∈ runReminderBatch recs)
    ∧ reminderStep RecordOutcome.success = true
    ∧ (∀ m, reminderStep (RecordOutcome.sendThrows m) = false
        ∧ reminderStep (RecordOutcome.createThrows m) = false)
    ∧ reminderStep RecordOutcome.notReady = false := by
  refine ⟨?_, ?_, rfl, fun m => ⟨rfl, rfl⟩, rfl⟩
  · induction recs with
    | nil => rfl
    | cons p rest ih => simp [runReminderBatch, ih]
  · induction recs with
    | nil => intro p hp; cases hp
    | cons q rest ih =>
        intro p hp
        rcases List.mem_cons.mp hp with h | h
        · subst h
          exact List.mem_cons_self _ _
        · exact List.mem_cons_of_mem _ (ih p h)

/-- C6 (witness: a batch where the middle record's send fails still processes
and marks the later successful record). -/
theorem reminderBatch_isolation_witness :
    ("r3", reminderStep RecordOutcome.success)
      ∈ runReminderBatch
          [("r1", RecordOutcome.success),
           ("r2", RecordOutcome.sendThrows "send timed out"),
           ("r3", RecordOutcome.success)] :=
  (reminderBatch_isolation
      [("r1", RecordOutcome.success),
       ("r2", RecordOutcome.sendThrows "send timed out"),
       ("r3", RecordOutcome.success)]).2.1
    ("r3", RecordOutcome.success) (by decide)

/-- C7 (confirmed): `formatPhoneNumber` maps the three specified inputs to
`"923001234567@c.us"`, and on every input it agrees with the
specification-worded pipeline: strip non-digits, replace a leading `0` with
`92`, prepend `92` when absent, append `@c.us`. -/
theorem formatPhoneNumber_meets_spec :
    formatPhoneNumber "0300-1234567" = "923001234567@c.us"
    ∧ formatPhoneNumber "3001234567" = "923001234567@c.us"
    ∧ formatPhoneNumber "923001234567" = "923001234567@c.us"
    ∧ ∀ phone, formatPhoneNumber phone = specFormatPhoneNumber phone :=
  ⟨by decide, by decide, by decide, fun phone => rfl⟩

/-- C8 (confirmed): every lifecycle event whose write carries status
`connected`, `disconnected` or `error` writes the pairing-image field as
explicit null in the same write, so no single event write leaves
`status='connected'` together with a pairing image. -/
theorem lifecycleWrite_consistent (e : LifecycleEvent)
    (h : (lifecycleWrite e).status = "connected"
        ∨ (lifecycleWrite e).status = "disconnected"
        ∨ (lifecycleWrite e).status = "error") :
    (lifecycleWrite e).qr = some none := by
  cases e with
  | qr image =>
      rcases h with h | h | h <;> simp [lifecycleWrite] at h
  | ready phone => rfl
  | disconnected reason => rfl
  | authFailure msg => rfl

/-- C8 (witness at the `ready` event). -/
theorem lifecycleWrite_consistent_witness :
    (lifecycleWrite (LifecycleEvent.ready "923001234567")).qr = some none :=
  lifecycleWrite_consistent (LifecycleEvent.ready "923001234567") (Or.inl rfl)

/-- C9 (counterexample): for the paradigm case of "no connected client can
be reached" — an unpaired tenant, where the creation race never settles
(the timer fires with `client.info` absent and no `ready` or
`auth_failure` ever arrives) — the handler suspends at the await forever:
the request produces no structured failure response and no record update
at all, contradicting the claim. -/
theorem sendBill_unreachable_no_response :
    settleRace [RaceEvent.timeout false] = RaceOutcome.pending
    ∧ sendBillRequest none = none
    ∧ (sendBillRequest none).isSome = false :=
  ⟨by decide, rfl, rfl⟩

/-- C9 (amended): when the dispatch block settles with a failure — client
creation rejected, client resolved but not ready, or the transport send
threw — the endpoint responds with `success=false` and a human-readable
error reason, and the record is still updated with the attempt outcome;
but when the client resolution never settles (no connected client can be
reached and no lifecycle event ends the race), the handler hangs at the
await, so no response is sent and the record is not updated. -/
theorem sendBill_settled_failure_result (o : SendOutcome) (h : o ≠ SendOutcome.success) :
    sendBillRequest (some o) = some (sendBill o)
    ∧ (sendBill o).2.success = false
    ∧ ((sendBill o).2.error).isSome = true
    ∧ (sendBill o).1.billSentAtSet = true
    ∧ (sendBill o).1.billSentCountInc = 1
    ∧ (sendBill o).1.lastBillAttempt.whatsappSent = false
    ∧ (sendBill o).1.lastBillAttempt.error = (sendBill o).2.error
    ∧ sendBillRequest none = none := by
  cases o with
  | createThrows m => exact ⟨rfl, rfl, rfl, rfl, rfl, rfl, rfl, rfl⟩
  | notReady => exact ⟨rfl, rfl, rfl, rfl, rfl, rfl, rfl, rfl⟩
  | sendThrows m => exact ⟨rfl, rfl, rfl, rfl, rfl, rfl, rfl, rfl⟩
  | success => exact absurd rfl h

/-- C9 (witness at the not-ready outcome). -/
theorem sendBill_settled_failure_result_witness :
    SendOutcome.notReady ≠ SendOutcome.success
    ∧ sendBillRequest (some SendOutcome.notReady) = some (sendBill SendOutcome.notReady)
    ∧ (sendBill SendOutcome.notReady).2.success = false :=
  ⟨by decide,
   (sendBill_settled_failure_result SendOutcome.notReady (by decide)).1,
   (sendBill_settled_failure_result SendOutcome.notReady (by decide)).2.1⟩

/-- C10 (confirmed): every dispatch sets `billSentAt` and increments
`billSentCount` by one regardless of the outcome; only `lastBillAttempt`
distinguishes success (`whatsappSent=true`, `error=null`) from failure
(`whatsappSent=false` with the error message). -/
theorem sendBill_always_updates :
    (∀ o, (sendBill o).1.billSentAtSet = true ∧ (sendBill o).1.billSentCountInc = 1)
    ∧ (sendBill SendOutcome.success).1.lastBillAttempt = ⟨true, none⟩
    ∧ (∀ m, (sendBill (SendOutcome.sendThrows m)).1.lastBillAttempt = ⟨false, some m⟩)
    ∧ (∀ m, (sendBill (SendOutcome.createThrows m)).1.lastBillAttempt = ⟨false, some m⟩)
    ∧ (sendBill SendOutcome.notReady).1.lastBillAttempt
        = ⟨false, some "WhatsApp client not connected or ready"⟩ := by
  refine ⟨fun o => ?_, rfl, fun m => rfl, fun m => rfl, rfl⟩
  cases o <;> exact ⟨rfl, rfl⟩

end MotoMind
